import Mathlib

/-!
Verification of the JSON-RPC framing/dispatch substrate of the
JunctionRelay_Protocols repository.

The definitions below are a shallow embedding of the plugin-side substrate:

* `packages/protocol/src/index.ts` — protocol constants (`JSON_RPC_ERRORS`,
  `PLUGIN_ID_PATTERN`);
* `src/unnamed/part_004` (the SDK's `PayloadPlugin.ts`, handlers-map
  revision) — `PayloadPlugin` with `constructor`, `handleLine`, `dispatch`,
  `writeResponse`, and the `startRpc` read loop.

JSON documents are modeled by the inductive `Json`.  Numbers are modeled as
integers: every numeric literal appearing in the protocol, in the claims and
in the substrate (error codes, identifiers, uptime seconds) is an integer,
and the model's parser treats fraction/exponent literals as parse failures.

Platform pieces that the source calls but does not define are modeled
explicitly and marked as such in their doc comments: `JSON.parse`
(`parseTopLevel`), the JSON key dropping of `JSON.stringify` for `undefined`
values (`wireObj` / `writeResponse`), JavaScript's string coercion of
property keys (`jsPropKey`), the `TypeError` thrown by a property read on a
nullish rejection value (`Thrown.numericCodeProbe` / `catchEmit`), and
Node's promise-job ordering for the un-awaited `handleLine` promises
(`DispatchKind` / `Tier` / `runBatch`).
-/

namespace JunctionRelay

/-- A JSON document.  Object fields are kept in insertion order; the parser
collapses duplicate keys the way `JSON.parse` does (last value wins, first
position kept), so parsed objects have distinct keys. -/
inductive Json where
  | null : Json
  | bool (b : Bool) : Json
  | num (n : Int) : Json
  | str (s : String) : Json
  | arr (elems : List Json) : Json
  | obj (fields : List (String × Json)) : Json

/-- First binding of `key` in an association list of JSON object fields. -/
def lookupField (fields : List (String × Json)) (key : String) : Option Json :=
  match fields with
  | [] => none
  | (k, v) :: rest => if k = key then some v else lookupField rest key

/-- JavaScript property read `v[key]` on a parsed JSON value, own properties
only: `none` models `undefined` (non-object receiver or absent key).  The
prototype chain is not modeled; no claim involves prototype-named keys. -/
def Json.get? (v : Json) (key : String) : Option Json :=
  match v with
  | Json.obj fields => lookupField fields key
  | _ => none

/-- Whether a JSON object carries the given key. -/
def Json.hasKey (v : Json) (key : String) : Bool :=
  (v.get? key).isSome

mutual

/-- Modeled platform semantics: JavaScript `String(x)` (ECMA-262 ToString)
on a JSON value — the coercion applied to a non-string `method` by the
property access `handlers[method]` and by the template literal in the
method-not-found message. -/
def jsString : Json → String
  | Json.null => "null"
  | Json.bool true => "true"
  | Json.bool false => "false"
  | Json.num n => toString n
  | Json.str s => s
  | Json.arr elems => jsStringElems elems
  | Json.obj _ => "[object Object]"

/-- `Array.prototype.toString`: elements joined with `","`, `null` elements
rendered as the empty string. -/
def jsStringElems : List Json → String
  | [] => ""
  | [Json.null] => ""
  | [x] => jsString x
  | Json.null :: rest => "," ++ jsStringElems rest
  | x :: rest => jsString x ++ "," ++ jsStringElems rest

end

/-- Modeled platform semantics: the property key used by
`this.config.handlers[method]` — JavaScript coerces the (unvalidated)
`method` value to a string; `undefined` coerces to `"undefined"`. -/
def jsPropKey (methodVal : Option Json) : String :=
  match methodVal with
  | none => "undefined"
  | some v => jsString v

/-! ### The line codec: a model of `JSON.parse` -/

def isJsonWs (c : Char) : Bool :=
  c = ' ' || c = '\t' || c = '\n' || c = '\r'

def skipWs : List Char → List Char
  | [] => []
  | c :: rest => if isJsonWs c then skipWs rest else c :: rest

def hexVal? (c : Char) : Option Nat :=
  if '0' ≤ c ∧ c ≤ '9' then some (c.toNat - '0'.toNat)
  else if 'a' ≤ c ∧ c ≤ 'f' then some (c.toNat - 'a'.toNat + 10)
  else if 'A' ≤ c ∧ c ≤ 'F' then some (c.toNat - 'A'.toNat + 10)
  else none

/-- Body of a JSON string literal (after the opening quote): handles the
escapes of the JSON grammar and rejects raw control characters.  `\u`
escapes denoting surrogate halves are rejected (Lean strings hold Unicode
scalar values; no claim involves them). -/
def parseStrBody : Nat → List Char → List Char → Option (String × List Char)
  | 0, _, _ => none
  | _+1, acc, '"' :: rest => some (String.mk acc.reverse, rest)
  | fuel+1, acc, '\\' :: esc :: rest =>
      match esc with
      | '"' => parseStrBody fuel ('"' :: acc) rest
      | '\\' => parseStrBody fuel ('\\' :: acc) rest
      | '/' => parseStrBody fuel ('/' :: acc) rest
      | 'b' => parseStrBody fuel ('\x08' :: acc) rest
      | 'f' => parseStrBody fuel ('\x0c' :: acc) rest
      | 'n' => parseStrBody fuel ('\n' :: acc) rest
      | 'r' => parseStrBody fuel ('\r' :: acc) rest
      | 't' => parseStrBody fuel ('\t' :: acc) rest
      | 'u' =>
        match rest with
        | h1 :: h2 :: h3 :: h4 :: rest' =>
          (match hexVal? h1, hexVal? h2, hexVal? h3, hexVal? h4 with
          | some a, some b, some c, some d =>
            let code := ((a * 16 + b) * 16 + c) * 16 + d
            if code < 0xd800 ∨ 0xe000 ≤ code then
              parseStrBody fuel (Char.ofNat code :: acc) rest'
            else none
          | _, _, _, _ => none)
        | _ => none
      | _ => none
  | fuel+1, acc, c :: rest =>
      if c.toNat < 0x20 then none
      else parseStrBody fuel (c :: acc) rest
  | _+1, _, [] => none

def digitsToNat : Nat → List Char → Nat
  | acc, [] => acc
  | acc, c :: rest => digitsToNat (acc * 10 + (c.toNat - '0'.toNat)) rest

/-- JSON numeric literal, restricted to integers (optional minus, digits, no
leading zero on multi-digit literals).  Fraction/exponent parts are not
modeled and are treated as parse failures; no claim involves them. -/
def parseNumber (cs : List Char) : Option (Json × List Char) :=
  let (neg, cs1) := match cs with
    | '-' :: t => (true, t)
    | _ => (false, cs)
  match cs1 with
  | [] => none
  | c :: _ =>
    if c.isDigit then
      let (digits, rest) := cs1.span (fun d => d.isDigit)
      match digits with
      | '0' :: _ :: _ => none
      | _ =>
        match rest with
        | '.' :: _ => none
        | 'e' :: _ => none
        | 'E' :: _ => none
        | _ =>
          let n : Int := Int.ofNat (digitsToNat 0 digits)
          some (Json.num (if neg then -n else n), rest)
    else none

/-- `JSON.parse` keeps the last value of a duplicated object key at the
first occurrence's position. -/
def insertField (fields : List (String × Json)) (key : String) (v : Json) :
    List (String × Json) :=
  match fields with
  | [] => [(key, v)]
  | (k, w) :: rest =>
    if k = key then (k, v) :: rest else (k, w) :: insertField rest key v

def startsWith (pre : List Char) (cs : List Char) : Option (List Char) :=
  match pre, cs with
  | [], rest => some rest
  | p :: ps, c :: rest => if c = p then startsWith ps rest else none
  | _ :: _, [] => none

inductive ParseMode where
  | value
  | arrayRest (acc : List Json)
  | objectRest (acc : List (String × Json))

/-- Recursive-descent core of the `JSON.parse` model; fuel-structured, any
fuel at least the nesting depth (`parseTopLevel` passes `length + 2`, which
always suffices since every recursive call consumes at least one input
character first). -/
def parseCore : Nat → ParseMode → List Char → Option (Json × List Char)
  | 0, _, _ => none
  | fuel+1, ParseMode.value, cs =>
    (match skipWs cs with
    | [] => none
    | c :: rest =>
      if c = '"' then
        match parseStrBody (rest.length + 1) [] rest with
        | some (s, rest') => some (Json.str s, rest')
        | none => none
      else if c = 'n' then
        match startsWith ['u', 'l', 'l'] rest with
        | some rest' => some (Json.null, rest')
        | none => none
      else if c = 't' then
        match startsWith ['r', 'u', 'e'] rest with
        | some rest' => some (Json.bool true, rest')
        | none => none
      else if c = 'f' then
        match startsWith ['a', 'l', 's', 'e'] rest with
        | some rest' => some (Json.bool false, rest')
        | none => none
      else if c = '\x5b' then
        match skipWs rest with
        | '\x5d' :: rest' => some (Json.arr [], rest')
        | _ =>
          match parseCore fuel ParseMode.value rest with
          | some (v, rest') => parseCore fuel (ParseMode.arrayRest [v]) rest'
          | none => none
      else if c = '\x7b' then
        match skipWs rest with
        | '\x7d' :: rest' => some (Json.obj [], rest')
        | _ => parseCore fuel (ParseMode.objectRest []) rest
      else
        parseNumber (c :: rest))
  | fuel+1, ParseMode.arrayRest acc, cs =>
    (match skipWs cs with
    | ',' :: rest =>
      match parseCore fuel ParseMode.value rest with
      | some (v, rest') => parseCore fuel (ParseMode.arrayRest (acc ++ [v])) rest'
      | none => none
    | '\x5d' :: rest => some (Json.arr acc, rest)
    | _ => none)
  | fuel+1, ParseMode.objectRest acc, cs =>
    (match skipWs cs with
    | '"' :: rest =>
      match parseStrBody (rest.length + 1) [] rest with
      | some (key, rest1) =>
        (match skipWs rest1 with
        | ':' :: rest2 =>
          match parseCore fuel ParseMode.value rest2 with
          | some (v, rest3) =>
            (match skipWs rest3 with
            | ',' :: rest4 => parseCore fuel (ParseMode.objectRest (insertField acc key v)) rest4
            | '\x7d' :: rest4 => some (Json.obj (insertField acc key v), rest4)
            | _ => none)
          | none => none
        | _ => none)
      | none => none
    | _ => none)

/-- Model of `JSON.parse(line)`: `none` models the `JSON.parse` throw that
`handleLine` catches, `some v` the parsed document (the whole line must be
one JSON document, surrounding whitespace allowed). -/
def parseTopLevel (line : String) : Option Json :=
  match parseCore (line.length + 2) ParseMode.value line.data with
  | some (v, rest) =>
    match skipWs rest with
    | [] => some v
    | _ => none
  | none => none

/-! ### Protocol constants (`packages/protocol/src/index.ts`) -/

def JSON_RPC_ERRORS.PARSE_ERROR : Int := -32700
def JSON_RPC_ERRORS.INVALID_REQUEST : Int := -32600
def JSON_RPC_ERRORS.METHOD_NOT_FOUND : Int := -32601
def JSON_RPC_ERRORS.INVALID_PARAMS : Int := -32602
def JSON_RPC_ERRORS.INTERNAL_ERROR : Int := -32603
def JSON_RPC_ERRORS.SERVER_ERROR : Int := -32000

def isLowerAlphaChar (c : Char) : Bool :=
  'a' ≤ c && c ≤ 'z'

def isLowerAlnumChar (c : Char) : Bool :=
  isLowerAlphaChar c || ('0' ≤ c && c ≤ '9')

/-- Splits on a separator character; always returns at least one (possibly
empty) group, so leading/trailing/doubled separators show up as empty
groups. -/
def splitChar (sep : Char) : List Char → List (List Char)
  | [] => [[]]
  | c :: rest =>
    match splitChar sep rest with
    | [] => [[c]]
    | g :: gs => if c = sep then [] :: g :: gs else (c :: g) :: gs

/-- One side of the dot in `PLUGIN_ID_PATTERN`, i.e. the regex piece
`[a-z][a-z0-9]*(-[a-z0-9]+)*`: hyphen-separated nonempty alphanumeric
groups, the first beginning with a lowercase letter. -/
def kebabSegmentOk (cs : List Char) : Bool :=
  match splitChar '-' cs with
  | [] => false
  | g :: gs =>
    (match g with
     | [] => false
     | c :: restChars => isLowerAlphaChar c && restChars.all isLowerAlnumChar)
      && gs.all (fun h => (!h.isEmpty) && h.all isLowerAlnumChar)

/-- `PLUGIN_ID_PATTERN.test`, the anchored regex
`/^[a-z][a-z0-9]*(-[a-z0-9]+)*\.[a-z][a-z0-9]*(-[a-z0-9]+)*$/`: the two
dot-sides contain no dot themselves, so the whole string must contain
exactly one dot, with both sides matching `kebabSegmentOk`. -/
def pluginIdTest (s : String) : Bool :=
  match splitChar '.' s.data with
  | [a, b] => kebabSegmentOk a && kebabSegmentOk b
  | _ => false

/-! ### Handler outcomes and thrown values -/

/-- The settled value of a handler promise.  `undef` models resolving with
`undefined`; `unserializable` marks a resolved value that `JSON.stringify`
cannot serialize (circular structure, BigInt, ...), carrying the
`TypeError` message that the stringifier would throw. -/
inductive JsValue where
  | undef : JsValue
  | json (v : Json) : JsValue
  | unserializable (msg : String) : JsValue

/-- A thrown/rejected JavaScript value as observed by `handleLine`'s catch:
an `Error` instance (whose `message` is used, possibly carrying a `code`
own-property attached via `Object.assign`), an arbitrary non-Error JSON
value (`throw null`, `throw 5`, `throw {code: 42}`, ...), or `undefined`. -/
inductive Thrown where
  | errObj (message : String) (code : Option Int) : Thrown
  | jsValue (v : Json) : Thrown
  | undef : Thrown

/-- The `typeof (err as {code?: unknown}).code === 'number'` probe of
`handleLine`'s catch.  The property READ itself throws a `TypeError` when
the rejection value is `null` or `undefined` (modeled by `Except.error`);
on any other value it yields the numeric `code` own-property if present
(property access on a primitive boxes it and yields `undefined`). -/
def Thrown.numericCodeProbe : Thrown → Except Unit (Option Int)
  | Thrown.errObj _ code => Except.ok code
  | Thrown.undef => Except.error ()
  | Thrown.jsValue Json.null => Except.error ()
  | Thrown.jsValue v =>
    Except.ok
      (match v.get? ("code") with
      | some (Json.num n) => some n
      | _ => none)

/-- Wire error message chosen by `handleLine`'s catch:
`err instanceof Error ? err.message : String(err)`. -/
def Thrown.wireMessage : Thrown → String
  | Thrown.errObj message _ => message
  | Thrown.jsValue v => jsString v
  | Thrown.undef => "undefined"

/-- An entry of the plugin author's `handlers` map: an async function of the
parameters object.  `run` gives the settled outcome (resolved value or
thrown/rejected value); `suspends` records whether the handler awaits a
pending operation before settling (used only by the event-loop model
`runBatch` — a handler body is the same single-shot function either way). -/
structure Handler where
  suspends : Bool
  run : Json → Except Thrown JsValue

/-- How `dispatch`'s promise settles, which fixes when `handleLine`'s
`await` continuation (and hence its `writeResponse`) runs relative to the
other lines of a synchronously delivered chunk:

* `immediate` — a builtin `return` of a plain object, or the
  method-not-found `throw`: the async function settles its promise at call
  time, and the `await` in `handleLine` resumes one microtask tick later;
* `handlerSettled` — `return handler(params)` where the handler settles
  without suspending: the async function resolves its promise with a
  thenable, which costs two extra microtask ticks (the
  `PromiseResolveThenableJob` and the reaction on the handler's promise)
  before the `await` resumes — three ticks in all, the same for a
  fulfilling and for a rejecting handler;
* `handlerSuspended` — the handler awaited a pending operation: the
  response is written only after that operation completes, past the whole
  microtask phase. -/
inductive DispatchKind where
  | immediate : DispatchKind
  | handlerSettled : DispatchKind
  | handlerSuspended : DispatchKind

/-! ### `PayloadPlugin` (src/unnamed/part_004) -/

/-- `PayloadMetadata`: the static descriptor supplied at construction.
`descriptor` is the whole JSON-serializable object (returned verbatim by
the `getMetadata` builtin); `payloadName` and `displayName` are the two
fields the substrate itself reads off it. -/
structure PayloadMetadata where
  payloadName : String
  displayName : String
  descriptor : Json

/-- `PayloadPluginConfig`: metadata plus the author's named handler map
(a string-keyed JavaScript object, modeled as an association list of its
own properties). -/
structure PayloadPluginConfig where
  metadata : PayloadMetadata
  handlers : List (String × Handler)

structure PayloadPlugin where
  config : PayloadPluginConfig
  startTime : Int

/-- The `PayloadPlugin` constructor: validates `metadata.payloadName`
against `PLUGIN_ID_PATTERN` and throws (models: returns `Except.error` with
the thrown `Error`'s message) before any request is read when it does not
match; otherwise records the config and the construction-time clock reading
`Date.now()` as `startTime`. -/
def PayloadPlugin.create (config : PayloadPluginConfig) (now : Int) :
    Except String PayloadPlugin :=
  if !pluginIdTest config.metadata.payloadName then
    Except.error ("payloadName '" ++ config.metadata.payloadName
      ++ "' must be namespaced dot-notation (e.g. 'junctionrelay.jr-protocol')")
  else
    Except.ok { config := config, startTime := now }

/-- `request.method === (literal)`: strict equality of the unvalidated
`method` value against a string literal (no coercion). -/
def isStrEq (v : Option Json) (s : String) : Bool :=
  match v with
  | some (Json.str t) => t == s
  | _ => false

/-- Own-property lookup in the author's `handlers` object. -/
def lookupHandler (handlers : List (String × Handler)) (key : String) :
    Option Handler :=
  match handlers with
  | [] => none
  | (k, h) :: rest => if k = key then some h else lookupHandler rest key

/-- The `healthCheck` builtin's result object:
`Math.floor((Date.now() - this.startTime) / 1000)` is floor division. -/
def healthCheckResult (startTime now : Int) : Json :=
  Json.obj [("healthy", Json.bool true),
            ("uptime", Json.num (Int.fdiv (now - startTime) 1000))]

/-- `PayloadPlugin.dispatch` (src/unnamed/part_004): the two builtins are
checked first by strict string comparison; every other method value is
coerced to a property key and looked up in the author's handlers map;
a missing entry throws an `Error` with `code: METHOD_NOT_FOUND`.  The
first component records how the `dispatch` promise settles (see
`DispatchKind`); the second is its settled outcome. -/
def PayloadPlugin.dispatch (p : PayloadPlugin) (methodVal : Option Json)
    (params : Json) (now : Int) : DispatchKind × Except Thrown JsValue :=
  if isStrEq methodVal ("getMetadata") then
    (DispatchKind.immediate, Except.ok (JsValue.json p.config.metadata.descriptor))
  else if isStrEq methodVal ("healthCheck") then
    (DispatchKind.immediate, Except.ok (JsValue.json (healthCheckResult p.startTime now)))
  else
    match lookupHandler p.config.handlers (jsPropKey methodVal) with
    | none =>
      (DispatchKind.immediate, Except.error (Thrown.errObj
        ("Method not found: " ++ jsPropKey methodVal)
        (some JSON_RPC_ERRORS.METHOD_NOT_FOUND)))
    | some handler =>
      ((if handler.suspends then DispatchKind.handlerSuspended
        else DispatchKind.handlerSettled), handler.run params)

/-- `request.params ?? {}` — `undefined` and `null` default to the empty
object. -/
def requestParams (req : Json) : Json :=
  match req.get? ("params") with
  | none => Json.obj []
  | some Json.null => Json.obj []
  | some p => p

/-- The serialized response envelope as a JSON document, in the key order
of the object literals passed to `writeResponse`; keys whose value is
`undefined` (an absent `id`, an `undefined` result) are dropped, as
`JSON.stringify` drops them. -/
def wireObj (idv : Option Json) (result : Option Json)
    (error : Option (Int × String)) : Json :=
  Json.obj
    ([("jsonrpc", Json.str ("2.0"))]
      ++ (match idv with
          | some v => [("id", v)]
          | none => [])
      ++ (match result with
          | some v => [("result", v)]
          | none => [])
      ++ (match error with
          | some (code, message) =>
            [("error", Json.obj [("code", Json.num code),
                                 ("message", Json.str message)])]
          | none => []))

/-- A response envelope as constructed at `writeResponse`'s call sites:
either `{jsonrpc, id, result}` or `{jsonrpc, id, error: {code, message}}`. -/
inductive ResponseDraft where
  | success (idv : Option Json) (result : JsValue) : ResponseDraft
  | failure (idv : Option Json) (code : Int) (message : String) : ResponseDraft

/-- `PayloadPlugin.writeResponse`: `process.stdout.write(JSON.stringify(response) + '\n')`.
It has no guard of its own: `JSON.stringify` throws a `TypeError` when the
result value is unserializable (modeled by the `Except.error` case), and
otherwise one line holding the wire document is written. -/
def writeResponse : ResponseDraft → Except Thrown Json
  | ResponseDraft.success _ (JsValue.unserializable msg) =>
    Except.error (Thrown.errObj msg none)
  | ResponseDraft.success idv JsValue.undef =>
    Except.ok (wireObj idv none none)
  | ResponseDraft.success idv (JsValue.json v) =>
    Except.ok (wireObj idv (some v) none)
  | ResponseDraft.failure idv code message =>
    Except.ok (wireObj idv none (some (code, message)))

/-- When during Node's event loop the response line of a processed input
line is written to stdout.  `startRpc` does not await `handleLine`
(`rl.on('line', (line) => { this.handleLine(line).catch(...) })`), so for a
chunk of lines whose `'line'` events fire synchronously, writes happen at
four depths:

* `sync` — a parse-failure response, written during the event callback
  itself, before any microtask;
* `builtinTick` — an `immediate` dispatch (builtin result or
  method-not-found error): the `await` continuation runs one microtask
  tick after its callback;
* `handlerTick` — a `handlerSettled` dispatch: the thenable resolution of
  `return handler(params)` costs two extra ticks, so the continuation runs
  three ticks after its callback — strictly after every `builtinTick`
  write of the chunk;
* `deferred` — a suspended handler: after the whole microtask phase.

Each line contributes one FIFO chain of microtask jobs whose length is its
depth, with the chains' first jobs enqueued in line order during the
callback phase; FIFO replay of such chains runs them in waves, so writes
are ordered by depth first and by line order within a depth. -/
inductive Tier where
  | sync : Tier
  | builtinTick : Tier
  | handlerTick : Tier
  | deferred : Tier
deriving BEq, DecidableEq

def Tier.isSync : Tier → Bool
  | Tier.sync => true
  | _ => false

def Tier.isBuiltinTick : Tier → Bool
  | Tier.builtinTick => true
  | _ => false

def Tier.isHandlerTick : Tier → Bool
  | Tier.handlerTick => true
  | _ => false

def Tier.isDeferred : Tier → Bool
  | Tier.deferred => true
  | _ => false

/-- The emission tier of a parsed line, from how its dispatch settled. -/
def tierOfKind : DispatchKind → Tier
  | DispatchKind.immediate => Tier.builtinTick
  | DispatchKind.handlerSettled => Tier.handlerTick
  | DispatchKind.handlerSuspended => Tier.deferred

/-- The catch block of `handleLine`.  It first evaluates
`typeof (err as {code?: unknown}).code` — when the rejection value is
`null` or `undefined` that property access itself throws, the catch
throws, `handleLine`'s promise rejects, and since `startRpc`'s
`.catch` only logs to stderr, NO response line is written (`none`).
Otherwise it writes one error envelope under the request's identifier,
with the probed numeric code (else `SERVER_ERROR`) and the coerced
message. -/
def catchEmit (idv : Option Json) (t : Thrown) : Option Json :=
  match t.numericCodeProbe with
  | Except.error _ => none
  | Except.ok codeOpt =>
    some (wireObj idv none
      (some ((match codeOpt with
              | some c => c
              | none => JSON_RPC_ERRORS.SERVER_ERROR), t.wireMessage)))

/-- `PayloadPlugin.handleLine` for one input line, at clock reading `now`:
the wire document of the response line written for it (if any), together
with its emission tier.  Mirrors the source: a `JSON.parse` failure is
answered immediately with a `PARSE_ERROR` envelope under the fixed
fallback identifier `0`; otherwise `dispatch` is awaited and its outcome
written, the catch block turning a throw — including `writeResponse`'s
own serialization `TypeError`, thrown inside the `try` — into an error
envelope under the request's identifier.  The catch itself throws when the
rejection value is `null`/`undefined` (see `catchEmit`): then `handleLine`
rejects, the `.catch` installed by `startRpc` only logs, and the second
component is `none` — no response line for that input line. -/
def PayloadPlugin.handleLine (p : PayloadPlugin) (now : Int) (line : String) :
    Tier × Option Json :=
  match parseTopLevel line with
  | none =>
    (Tier.sync,
     some (wireObj (some (Json.num 0)) none
       (some (JSON_RPC_ERRORS.PARSE_ERROR, "Parse error"))))
  | some req =>
    let idv := req.get? ("id")
    match p.dispatch (req.get? ("method")) (requestParams req) now with
    | (kind, outcome) =>
      let tier := tierOfKind kind
      match outcome with
      | Except.ok value =>
        (match writeResponse (ResponseDraft.success idv value) with
        | Except.ok doc => (tier, some doc)
        | Except.error t => (tier, catchEmit idv t))
      | Except.error t => (tier, catchEmit idv t)

/-- The read loop of `startRpc` for one synchronously delivered chunk of
input lines: the wire documents of all response lines, in the order Node
writes them.  Since `handleLine` is not awaited, the `'line'` callbacks
all run before any `await` continuation; writes are ordered by settling
depth first and line order within a depth (see `Tier`): parse-failure
responses (written synchronously in the callbacks), then builtin and
method-not-found responses (one tick), then settled author-handler
responses (three ticks), then suspended handlers' responses (taken to
complete in line order, e.g. equal await delays).  A line whose
`handleLine` promise rejects (nullish handler rejection) writes nothing.
A single clock reading stands for the burst.  The loop state is reused
across lines — nothing stops it. -/
def PayloadPlugin.runBatch (p : PayloadPlugin) (now : Int)
    (lines : List String) : List Json :=
  let results := lines.map (fun line => p.handleLine now line)
  ((results.filter (fun r => r.1.isSync)).filterMap (fun r => r.2))
    ++ ((results.filter (fun r => r.1.isBuiltinTick)).filterMap (fun r => r.2))
    ++ ((results.filter (fun r => r.1.isHandlerTick)).filterMap (fun r => r.2))
    ++ ((results.filter (fun r => r.1.isDeferred)).filterMap (fun r => r.2))

/-- The author's handlers map with the entries named after the two builtins
removed — used to state that those entries are unreachable. -/
def eraseBuiltinNames (handlers : List (String × Handler)) :
    List (String × Handler) :=
  handlers.filter (fun kh => !(kh.1 == "getMetadata" || kh.1 == "healthCheck"))

/-- The response document (if any) produced for a parsed request whose
dispatch settled with the given outcome — `handleLine`'s `try`/`catch`
around `dispatch` and `writeResponse` collapsed into one map (see
`handleLine_parsed`): a defined result is written as `result`; an
`undefined` result leaves the envelope with neither `result` nor `error`;
a serialization failure lands in the catch as a codeless `TypeError`; a
thrown value goes through the catch (`catchEmit`), which emits nothing
when the rejection value is nullish. -/
def finishOutcome (idv : Option Json) : Except Thrown JsValue → Option Json
  | Except.ok JsValue.undef => some (wireObj idv none none)
  | Except.ok (JsValue.json v) => some (wireObj idv (some v) none)
  | Except.ok (JsValue.unserializable msg) => catchEmit idv (Thrown.errObj msg none)
  | Except.error t => catchEmit idv t

/-! ### The grammar of claim C7, and its amended form

`specClaimedNameGrammar` follows the claim's words (refinement comparison
against the source's `pluginIdTest`): "one or more lowercase
alphanumeric-with-hyphen segments, a literal dot, then one or more
lowercase alphanumeric-with-hyphen segments" — read as: each dot-side is
one or more nonempty lowercase-alphanumeric segments joined by single
hyphens.  `amendedNameOk` is that grammar with the one restriction the
code's regex adds and the claim omits: the first segment of each dot-side
must begin with a lowercase letter. -/

def hyphenSegmentsOk (cs : List Char) : Bool :=
  (splitChar '-' cs).all (fun g => (!g.isEmpty) && g.all isLowerAlnumChar)

def specClaimedNameGrammar (s : String) : Bool :=
  match splitChar '.' s.data with
  | [a, b] => hyphenSegmentsOk a && hyphenSegmentsOk b
  | _ => false

def amendedSideOk (cs : List Char) : Bool :=
  match splitChar '-' cs with
  | [] => false
  | g :: gs =>
    ((!g.isEmpty) && g.all isLowerAlnumChar)
      && gs.all (fun h => (!h.isEmpty) && h.all isLowerAlnumChar)
      && (match g with
          | [] => false
          | c :: _ => isLowerAlphaChar c)

def amendedNameOk (s : String) : Bool :=
  match splitChar '.' s.data with
  | [a, b] => amendedSideOk a && amendedSideOk b
  | _ => false

/-! ### Concrete fixtures used by witnesses and counterexamples -/

def demoDescriptor : Json :=
  Json.obj [("payloadName", Json.str ("acme.widget-v2")),
            ("displayName", Json.str ("Demo Widget")),
            ("category", Json.str ("Custom"))]

def demoMetadata : PayloadMetadata :=
  { payloadName := "acme.widget-v2",
    displayName := "Demo Widget",
    descriptor := demoDescriptor }

/-- An author handler that settles immediately with a defined result. -/
def echoHandler : Handler :=
  { suspends := false,
    run := fun params => Except.ok (JsValue.json (Json.obj [("payload", params)])) }

def demoPlugin : PayloadPlugin :=
  { config := { metadata := demoMetadata, handlers := [("echo", echoHandler)] },
    startTime := 0 }

/-- Handler whose promise rejects with an `Error` carrying a numeric
`code` own-property. -/
def failingHandler : Handler :=
  { suspends := false,
    run := fun _ => Except.error (Thrown.errObj ("boom") (some 42)) }

def failingPlugin : PayloadPlugin :=
  { config := { metadata := demoMetadata, handlers := [("explode", failingHandler)] },
    startTime := 0 }

/-- Handler resolving with a value `JSON.stringify` cannot serialize
(a BigInt): serialization of the success envelope throws this `TypeError`. -/
def bigintHandler : Handler :=
  { suspends := false,
    run := fun _ =>
      Except.ok (JsValue.unserializable ("Do not know how to serialize a BigInt")) }

def bigintPlugin : PayloadPlugin :=
  { config := { metadata := demoMetadata, handlers := [("bigint", bigintHandler)] },
    startTime := 0 }

/-- Handler that resolves with `undefined` (an async function that returns
nothing). -/
def undefHandler : Handler :=
  { suspends := false, run := fun _ => Except.ok JsValue.undef }

def undefPlugin : PayloadPlugin :=
  { config := { metadata := demoMetadata, handlers := [("fireAndForget", undefHandler)] },
    startTime := 0 }

/-- An author-supplied handler registered under the builtin name
`getMetadata`. -/
def shadowHandler : Handler :=
  { suspends := false,
    run := fun _ => Except.ok (JsValue.json (Json.str ("author shadow invoked"))) }

def shadowPlugin : PayloadPlugin :=
  { config := { metadata := demoMetadata,
                handlers := [("getMetadata", shadowHandler)] },
    startTime := 0 }

/-- A config whose declared name starts a dot-side with a digit: inside the
claimed grammar, outside the regex. -/
def digitNameConfig : PayloadPluginConfig :=
  { metadata := { payloadName := "4x.y",
                  displayName := "Digit Name",
                  descriptor := Json.obj [("payloadName", Json.str ("4x.y"))] },
    handlers := [] }

/-- Handler whose promise rejects with the JavaScript value `null`
(`throw null` in the handler body). -/
def nullRejectHandler : Handler :=
  { suspends := false, run := fun _ => Except.error (Thrown.jsValue Json.null) }

/-- Handler whose promise rejects with `undefined`. -/
def undefRejectHandler : Handler :=
  { suspends := false, run := fun _ => Except.error Thrown.undef }

def nullRejectPlugin : PayloadPlugin :=
  { config := { metadata := demoMetadata,
                handlers := [("nullReject", nullRejectHandler),
                             ("undefReject", undefRejectHandler)] },
    startTime := 0 }

def badLine : String := "not json at all"

def hcLine7 : String :=
  "\x7b\"jsonrpc\":\"2.0\",\"method\":\"healthCheck\",\"params\":\x7b\x7d,\"id\":7\x7d"

def hcReq7 : Json :=
  Json.obj [("jsonrpc", Json.str ("2.0")), ("method", Json.str ("healthCheck")),
            ("params", Json.obj []), ("id", Json.num 7)]

def hcLine0 : String :=
  "\x7b\"jsonrpc\":\"2.0\",\"method\":\"healthCheck\",\"params\":\x7b\x7d,\"id\":0\x7d"

def hcReq0 : Json :=
  Json.obj [("jsonrpc", Json.str ("2.0")), ("method", Json.str ("healthCheck")),
            ("params", Json.obj []), ("id", Json.num 0)]

def metaLine5 : String :=
  "\x7b\"jsonrpc\":\"2.0\",\"method\":\"getMetadata\",\"params\":\x7b\x7d,\"id\":5\x7d"

def metaReq5 : Json :=
  Json.obj [("jsonrpc", Json.str ("2.0")), ("method", Json.str ("getMetadata")),
            ("params", Json.obj []), ("id", Json.num 5)]

def nullRejectLine6 : String :=
  "\x7b\"jsonrpc\":\"2.0\",\"method\":\"nullReject\",\"params\":\x7b\x7d,\"id\":6\x7d"

def undefRejectLine2 : String :=
  "\x7b\"jsonrpc\":\"2.0\",\"method\":\"undefReject\",\"params\":\x7b\x7d,\"id\":2\x7d"

def explodeLine9 : String :=
  "\x7b\"jsonrpc\":\"2.0\",\"method\":\"explode\",\"params\":\x7b\x7d,\"id\":9\x7d"

def explodeReq9 : Json :=
  Json.obj [("jsonrpc", Json.str ("2.0")), ("method", Json.str ("explode")),
            ("params", Json.obj []), ("id", Json.num 9)]

def bigintLine4 : String :=
  "\x7b\"jsonrpc\":\"2.0\",\"method\":\"bigint\",\"params\":\x7b\x7d,\"id\":4\x7d"

def bigintReq4 : Json :=
  Json.obj [("jsonrpc", Json.str ("2.0")), ("method", Json.str ("bigint")),
            ("params", Json.obj []), ("id", Json.num 4)]

def undefLine3 : String :=
  "\x7b\"jsonrpc\":\"2.0\",\"method\":\"fireAndForget\",\"params\":\x7b\x7d,\"id\":3\x7d"

/-- A request whose `method` field is the array `["getMetadata"]` — not the
string, so the strict builtin comparisons fail, but the property-key
coercion of `handlers[method]` turns it into the key `"getMetadata"`. -/
def arrayMethodLine : String :=
  "\x7b\"jsonrpc\":\"2.0\",\"method\":[\"getMetadata\"],\"params\":\x7b\x7d,\"id\":1\x7d"

/-! ## Helper lemmas -/

theorem wireObj_get_id (v : Json) (r : Option Json) (e : Option (Int × String)) :
    (wireObj (some v) r e).get? ("id") = some v := by
  rcases r with _ | rv <;> rcases e with _ | ⟨ec, em⟩ <;> rfl

theorem wireObj_hasKey_result (idv r : Option Json) (e : Option (Int × String)) :
    (wireObj idv r e).hasKey ("result") = r.isSome := by
  rcases idv with _ | iv <;> rcases r with _ | rv <;> rcases e with _ | ⟨ec, em⟩ <;> rfl

theorem wireObj_hasKey_error (idv r : Option Json) (e : Option (Int × String)) :
    (wireObj idv r e).hasKey ("error") = e.isSome := by
  rcases idv with _ | iv <;> rcases r with _ | rv <;> rcases e with _ | ⟨ec, em⟩ <;> rfl

/-- Every response document written for a parsed request carries the
request's identifier. -/
theorem finishOutcome_get_id (v : Json) (out : Except Thrown JsValue) (doc : Json)
    (h : finishOutcome (some v) out = some doc) :
    doc.get? ("id") = some v := by
  rcases out with t | jv
  · dsimp only [finishOutcome, catchEmit] at h
    rcases hp : t.numericCodeProbe with _ | codeOpt
    · rw [hp] at h
      exact Option.noConfusion h
    · rw [hp] at h
      injection h with h2
      rw [← h2]
      exact wireObj_get_id _ _ _
  · rcases jv with _ | w | msg
    · dsimp only [finishOutcome] at h
      injection h with h2
      rw [← h2]
      exact wireObj_get_id _ _ _
    · dsimp only [finishOutcome] at h
      injection h with h2
      rw [← h2]
      exact wireObj_get_id _ _ _
    · dsimp only [finishOutcome, catchEmit, Thrown.numericCodeProbe] at h
      injection h with h2
      rw [← h2]
      exact wireObj_get_id _ _ _

/-- `handleLine` on a line that parses: the response document (if any) is
`finishOutcome` of the dispatch outcome under the request's identifier,
and the tier follows the dispatch's settling kind. -/
theorem handleLine_parsed (p : PayloadPlugin) (now : Int) (line : String)
    (req : Json) (h : parseTopLevel line = some req) :
    p.handleLine now line =
      (tierOfKind (p.dispatch (req.get? ("method")) (requestParams req) now).1,
       finishOutcome (req.get? ("id"))
         (p.dispatch (req.get? ("method")) (requestParams req) now).2) := by
  unfold PayloadPlugin.handleLine
  rw [h]
  dsimp only
  rcases p.dispatch (req.get? ("method")) (requestParams req) now with ⟨kind, outcome⟩
  rcases outcome with t | jv
  · rfl
  · rcases jv with _ | w | msg
    · rfl
    · rfl
    · rfl

theorem lookupHandler_mem (handlers : List (String × Handler)) (k : String)
    (h : Handler) (hl : lookupHandler handlers k = some h) :
    (k, h) ∈ handlers := by
  induction handlers with
  | nil => simp [lookupHandler] at hl
  | cons kh rest ih =>
    rcases kh with ⟨k1, h1⟩
    by_cases hk : k1 = k
    · subst hk
      simp [lookupHandler] at hl
      subst hl
      exact List.mem_cons_self _ _
    · simp [lookupHandler, hk] at hl
      exact List.mem_cons_of_mem _ (ih hl)

theorem lookupHandler_erase (handlers : List (String × Handler)) (k : String)
    (h1 : k ≠ "getMetadata") (h2 : k ≠ "healthCheck") :
    lookupHandler (eraseBuiltinNames handlers) k = lookupHandler handlers k := by
  induction handlers with
  | nil => rfl
  | cons kh rest ih =>
    rcases kh with ⟨k1, hd⟩
    by_cases hg : k1 = "getMetadata"
    · subst hg
      have e1 : eraseBuiltinNames (("getMetadata", hd) :: rest) = eraseBuiltinNames rest := by
        simp [eraseBuiltinNames, List.filter_cons]
      rw [e1, ih]
      have hne : ¬(("getMetadata" : String) = k) := fun hc => h1 hc.symm
      simp [lookupHandler, hne]
    · by_cases hh : k1 = "healthCheck"
      · subst hh
        have e1 : eraseBuiltinNames (("healthCheck", hd) :: rest) = eraseBuiltinNames rest := by
          simp [eraseBuiltinNames, List.filter_cons]
        rw [e1, ih]
        have hne : ¬(("healthCheck" : String) = k) := fun hc => h2 hc.symm
        simp [lookupHandler, hne]
      · have e1 : eraseBuiltinNames ((k1, hd) :: rest) = (k1, hd) :: eraseBuiltinNames rest := by
          simp [eraseBuiltinNames, List.filter_cons, hg, hh]
        rw [e1]
        by_cases hk : k1 = k
        · subst hk
          simp [lookupHandler]
        · simp [lookupHandler, hk, ih]

theorem fdiv_thousand_mono {a b : Int} (h : a ≤ b) :
    Int.fdiv a 1000 ≤ Int.fdiv b 1000 := by
  rw [Int.fdiv_eq_ediv _ (by norm_num : (0 : Int) ≤ 1000),
      Int.fdiv_eq_ediv _ (by norm_num : (0 : Int) ≤ 1000)]
  exact Int.ediv_le_ediv (by norm_num) h

theorem lowerAlpha_lowerAlnum {c : Char} (h : isLowerAlphaChar c = true) :
    isLowerAlnumChar c = true := by
  unfold isLowerAlnumChar
  rw [h]
  rfl

theorem kebabSegmentOk_eq_amendedSideOk (cs : List Char) :
    kebabSegmentOk cs = amendedSideOk cs := by
  unfold kebabSegmentOk amendedSideOk
  rcases splitChar '-' cs with _ | ⟨g, gs⟩
  · rfl
  · rcases g with _ | ⟨c, restChars⟩
    · simp
    · cases hc : isLowerAlphaChar c
      · simp [hc]
      · simp [hc, lowerAlpha_lowerAlnum hc, List.all_cons]

theorem pluginIdTest_eq_amendedNameOk (s : String) :
    pluginIdTest s = amendedNameOk s := by
  unfold pluginIdTest amendedNameOk
  rcases splitChar '.' s.data with _ | ⟨a, rest⟩
  · rfl
  · rcases rest with _ | ⟨b, rest2⟩
    · rfl
    · rcases rest2 with _ | _
      · dsimp only
        rw [kebabSegmentOk_eq_amendedSideOk, kebabSegmentOk_eq_amendedSideOk]
      · rfl

/-! ## Claim theorems -/

/-- Claim C1: an input line that is not a complete valid JSON document is
answered with exactly one response — an error envelope with code
`PARSE_ERROR` (-32700) under the fixed fallback identifier — written
synchronously, with no further processing of that line; the read loop is
not stopped: prepending such a line to any batch of input lines only
prepends that one error document, every later line being answered exactly
as it would have been on its own. -/
theorem parse_error_line_isolated (p : PayloadPlugin) (now : Int)
    (line : String) (h : parseTopLevel line = none) :
    p.handleLine now line =
      (Tier.sync, some (wireObj (some (Json.num 0)) none
        (some (JSON_RPC_ERRORS.PARSE_ERROR, "Parse error"))))
    ∧ ∀ rest : List String,
        p.runBatch now (line :: rest) =
          wireObj (some (Json.num 0)) none
              (some (JSON_RPC_ERRORS.PARSE_ERROR, "Parse error"))
            :: p.runBatch now rest := by
  have h1 : p.handleLine now line =
      (Tier.sync, some (wireObj (some (Json.num 0)) none
        (some (JSON_RPC_ERRORS.PARSE_ERROR, "Parse error")))) := by
    unfold PayloadPlugin.handleLine
    rw [h]
  refine ⟨h1, fun rest => ?_⟩
  unfold PayloadPlugin.runBatch
  dsimp only
  rw [List.map_cons, h1]
  simp [List.filter_cons, List.filterMap_cons, Tier.isSync, Tier.isBuiltinTick,
    Tier.isHandlerTick, Tier.isDeferred]

/-- Witness for C1: the line `not json at all` yields exactly the parse
error document under identifier 0, and the well-formed `healthCheck`
request on the next line is still answered normally. -/
theorem parse_error_line_isolated_witness :
    parseTopLevel badLine = none
    ∧ demoPlugin.runBatch 5000 [badLine, hcLine7] =
        [wireObj (some (Json.num 0)) none
           (some (JSON_RPC_ERRORS.PARSE_ERROR, "Parse error")),
         wireObj (some (Json.num 7)) (some (healthCheckResult 0 5000)) none] := by
  have h := parse_error_line_isolated demoPlugin 5000 badLine (by rfl)
  refine ⟨by rfl, ?_⟩
  rw [h.2 [hcLine7]]
  rfl

/-- Counterexample to claim C3: a handler that rejects with `null` (or
`undefined`) yields NO response at all: the catch's
`typeof (err as …).code` property access itself throws a `TypeError`,
`handleLine`'s promise rejects, `startRpc`'s `.catch` only logs to
stderr, and no error envelope with the request's identifier is emitted —
the failure does escape the per-line conversion. -/
theorem nullish_rejection_counterexample :
    (nullRejectPlugin.handleLine 0 nullRejectLine6).2 = none
    ∧ (nullRejectPlugin.handleLine 0 undefRejectLine2).2 = none
    ∧ nullRejectPlugin.runBatch 0 [nullRejectLine6] = [] := by
  exact ⟨rfl, rfl, rfl⟩

/-- Claim C3 amended: a failing handler invocation is converted into an
error response under the request's identifier — the thrown value's
numeric `code` property used verbatim as the wire code, otherwise
`SERVER_ERROR` (-32000) — whenever the thrown value is not
`null`/`undefined`; when it is, the catch's own `code`-property access
throws, so no response is emitted for that line and the rejection is only
logged by `startRpc`. -/
theorem handler_failure_classified (p : PayloadPlugin) (now : Int)
    (line : String) (req : Json) (m : String) (h : Handler) (t : Thrown)
    (hparse : parseTopLevel line = some req)
    (hm : req.get? ("method") = some (Json.str m))
    (hm1 : m ≠ "getMetadata") (hm2 : m ≠ "healthCheck")
    (hlook : lookupHandler p.config.handlers m = some h)
    (hrun : h.run (requestParams req) = Except.error t) :
    (p.handleLine now line).2 =
      (match t.numericCodeProbe with
       | Except.ok codeOpt =>
         some (wireObj (req.get? ("id")) none
           (some ((match codeOpt with
                   | some c => c
                   | none => JSON_RPC_ERRORS.SERVER_ERROR), t.wireMessage)))
       | Except.error _ => none) := by
  rw [handleLine_parsed p now line req hparse]
  have hd : (p.dispatch (req.get? ("method")) (requestParams req) now).2
      = Except.error t := by
    unfold PayloadPlugin.dispatch
    have e1 : isStrEq (some (Json.str m)) ("getMetadata") = false := by
      simp [isStrEq, hm1]
    have e2 : isStrEq (some (Json.str m)) ("healthCheck") = false := by
      simp [isStrEq, hm2]
    have e3 : jsPropKey (some (Json.str m)) = m := by
      simp [jsPropKey, jsString]
    simp only [hm, e1, e2, e3, Bool.false_eq_true, if_false, hlook, hrun]
  dsimp only
  rw [hd]
  dsimp only [finishOutcome]
  unfold catchEmit
  rcases t.numericCodeProbe with _ | codeOpt
  · rfl
  · rfl

/-- Witness for the amended C3: a handler that rejects with an `Error`
carrying `code: 42` produces an error response with code 42 under the
request's identifier. -/
theorem handler_failure_classified_witness :
    parseTopLevel explodeLine9 = some explodeReq9
    ∧ failingHandler.run (requestParams explodeReq9)
        = Except.error (Thrown.errObj ("boom") (some 42))
    ∧ (failingPlugin.handleLine 0 explodeLine9).2 =
        some (wireObj (some (Json.num 9)) none (some (42, "boom"))) := by
  have h := handler_failure_classified failingPlugin 0 explodeLine9 explodeReq9
    ("explode") failingHandler (Thrown.errObj ("boom") (some 42))
    (by rfl) (by rfl) (by decide) (by decide) (by rfl) (by rfl)
  refine ⟨by rfl, by rfl, ?_⟩
  rw [h]
  rfl

/-- Counterexample to claim C4: response serialization is not total and has
no `INTERNAL_ERROR` fallback.  `writeResponse` itself throws when
`JSON.stringify` cannot serialize the result value; it is `handleLine`'s
catch that recovers, and the error response it emits carries
`SERVER_ERROR` (-32000) — the thrown `TypeError` has no numeric `code` —
not `INTERNAL_ERROR` (-32603) as the claim states. -/
theorem serialization_fallback_counterexample :
    writeResponse (ResponseDraft.success (some (Json.num 4))
        (JsValue.unserializable ("Do not know how to serialize a BigInt")))
      = Except.error (Thrown.errObj ("Do not know how to serialize a BigInt") none)
    ∧ (bigintPlugin.handleLine 0 bigintLine4).2 =
        some (wireObj (some (Json.num 4)) none
          (some (JSON_RPC_ERRORS.SERVER_ERROR,
                 "Do not know how to serialize a BigInt")))
    ∧ JSON_RPC_ERRORS.SERVER_ERROR ≠ JSON_RPC_ERRORS.INTERNAL_ERROR := by
  exact ⟨rfl, rfl, by decide⟩

/-- Claim C4 amended: serialization of a result value can fail, and
`writeResponse` then throws (`JSON.stringify` raises a `TypeError`); the
throw is caught by the per-line catch around dispatch-and-write, which
emits an error response under the request's identifier with code
`SERVER_ERROR` (-32000) and the serializer's message — the process and the
read loop survive, but no `INTERNAL_ERROR` fallback exists. -/
theorem serialization_failure_recovered (p : PayloadPlugin) (now : Int)
    (line : String) (req : Json) (msg : String)
    (hparse : parseTopLevel line = some req)
    (hout : (p.dispatch (req.get? ("method")) (requestParams req) now).2
      = Except.ok (JsValue.unserializable msg)) :
    writeResponse (ResponseDraft.success (req.get? ("id"))
        (JsValue.unserializable msg))
      = Except.error (Thrown.errObj msg none)
    ∧ (p.handleLine now line).2 =
        some (wireObj (req.get? ("id")) none
          (some (JSON_RPC_ERRORS.SERVER_ERROR, msg))) := by
  refine ⟨rfl, ?_⟩
  rw [handleLine_parsed p now line req hparse]
  dsimp only
  rw [hout]
  rfl

/-- Witness for the amended C4: the BigInt-returning handler's line is
answered with a -32000 error response carrying the stringifier's message. -/
theorem serialization_failure_recovered_witness :
    parseTopLevel bigintLine4 = some bigintReq4
    ∧ (bigintPlugin.handleLine 7 bigintLine4).2 =
        some (wireObj (some (Json.num 4)) none
          (some (JSON_RPC_ERRORS.SERVER_ERROR,
                 "Do not know how to serialize a BigInt"))) := by
  have h := serialization_failure_recovered bigintPlugin 7 bigintLine4 bigintReq4
    ("Do not know how to serialize a BigInt") (by rfl) (by rfl)
  refine ⟨by rfl, ?_⟩
  rw [h.2]
  rfl

/-- Claim C5: a well-formed `healthCheck` request is answered under its own
identifier with the result `{healthy: true, uptime: floor((now - startTime)/1000)}`;
uptime is non-negative once the clock is at or past the construction
instant, and is monotonically non-decreasing in the clock across successive
calls within one plugin lifetime. -/
theorem health_check_response (p : PayloadPlugin) (now now2 : Int)
    (line : String) (req : Json)
    (hparse : parseTopLevel line = some req)
    (hm : req.get? ("method") = some (Json.str ("healthCheck"))) :
    (p.handleLine now line).2 =
      some (wireObj (req.get? ("id")) (some (healthCheckResult p.startTime now)) none)
    ∧ healthCheckResult p.startTime now =
        Json.obj [("healthy", Json.bool true),
                  ("uptime", Json.num (Int.fdiv (now - p.startTime) 1000))]
    ∧ (p.startTime ≤ now → 0 ≤ Int.fdiv (now - p.startTime) 1000)
    ∧ (now ≤ now2 →
        Int.fdiv (now - p.startTime) 1000 ≤ Int.fdiv (now2 - p.startTime) 1000) := by
  refine ⟨?_, rfl, ?_, ?_⟩
  · rw [handleLine_parsed p now line req hparse]
    have hd : (p.dispatch (req.get? ("method")) (requestParams req) now).2
        = Except.ok (JsValue.json (healthCheckResult p.startTime now)) := by
      unfold PayloadPlugin.dispatch
      rw [hm]
      rfl
    dsimp only
    rw [hd]
    rfl
  · intro hle
    exact Int.fdiv_nonneg (by omega) (by norm_num)
  · intro hle
    exact fdiv_thousand_mono (by omega)

/-- Witness for C5: `healthCheck` with id 7 at clock 5000 on a plugin
constructed at clock 0 answers `{healthy: true, uptime: 5}` under id 7;
uptime is non-negative and does not decrease at clock 6000. -/
theorem health_check_response_witness :
    parseTopLevel hcLine7 = some hcReq7
    ∧ (demoPlugin.handleLine 5000 hcLine7).2 =
        some (wireObj (some (Json.num 7)) (some (healthCheckResult 0 5000)) none)
    ∧ healthCheckResult 0 5000 =
        Json.obj [("healthy", Json.bool true), ("uptime", Json.num 5)]
    ∧ 0 ≤ Int.fdiv (5000 - 0) 1000
    ∧ Int.fdiv (5000 - 0) 1000 ≤ Int.fdiv (6000 - 0) 1000 := by
  have h := health_check_response demoPlugin 5000 6000 hcLine7 hcReq7 (by rfl) (by rfl)
  refine ⟨by rfl, ?_, by rfl, h.2.2.1 (by decide), h.2.2.2 (by decide)⟩
  rw [h.1]
  rfl

/-- Claim C6: a `getMetadata` request is answered under its own identifier
with the descriptor object supplied at construction as the result, verbatim
— the substrate performs no computation or transformation on it. -/
theorem get_metadata_verbatim (p : PayloadPlugin) (now : Int)
    (line : String) (req : Json)
    (hparse : parseTopLevel line = some req)
    (hm : req.get? ("method") = some (Json.str ("getMetadata"))) :
    (p.handleLine now line).2 =
      some (wireObj (req.get? ("id")) (some p.config.metadata.descriptor) none) := by
  rw [handleLine_parsed p now line req hparse]
  have hd : (p.dispatch (req.get? ("method")) (requestParams req) now).2
      = Except.ok (JsValue.json p.config.metadata.descriptor) := by
    unfold PayloadPlugin.dispatch
    rw [hm]
    rfl
  dsimp only
  rw [hd]
  rfl

/-- Witness for C6: `getMetadata` with id 5 returns exactly the descriptor
supplied when `demoPlugin` was constructed. -/
theorem get_metadata_verbatim_witness :
    parseTopLevel metaLine5 = some metaReq5
    ∧ (demoPlugin.handleLine 0 metaLine5).2 =
        some (wireObj (some (Json.num 5)) (some demoDescriptor) none) := by
  have h := get_metadata_verbatim demoPlugin 0 metaLine5 metaReq5 (by rfl) (by rfl)
  refine ⟨by rfl, ?_⟩
  rw [h]
  rfl

/-- Counterexample to claim C7: the name `4x.y` matches the grammar as the
claim states it — each dot-side one or more nonempty lowercase-alphanumeric
segments joined by hyphens — yet construction fails, because the code's
regex additionally requires each dot-side to begin with a lowercase
letter. -/
theorem name_grammar_counterexample :
    specClaimedNameGrammar ("4x.y") = true
    ∧ PayloadPlugin.create digitNameConfig 0 =
        Except.error
          ("payloadName '4x.y' must be namespaced dot-notation (e.g. 'junctionrelay.jr-protocol')") := by
  exact ⟨rfl, rfl⟩

/-- Claim C7 amended: construction fails (before any request is read) iff
the declared identifying name falls outside the amended grammar — the
claimed grammar with the first segment of each dot-side beginning with a
lowercase letter — and on failure the message names the offending
identifier and the expected shape. -/
theorem name_validation (config : PayloadPluginConfig) (now : Int) :
    PayloadPlugin.create config now =
      (if amendedNameOk config.metadata.payloadName then
        Except.ok { config := config, startTime := now }
      else
        Except.error ("payloadName '" ++ config.metadata.payloadName
          ++ "' must be namespaced dot-notation (e.g. 'junctionrelay.jr-protocol')")) := by
  unfold PayloadPlugin.create
  rw [pluginIdTest_eq_amendedNameOk]
  cases h : amendedNameOk config.metadata.payloadName <;> simp [h]

/-- Counterexample to claim C8: a handler that resolves with `undefined`
yields an emitted envelope containing NEITHER a result NOR an error — the
`undefined`-valued `result` key is dropped by `JSON.stringify`. -/
theorem response_exclusivity_counterexample :
    (undefPlugin.handleLine 0 undefLine3).2 =
      some (Json.obj [("jsonrpc", Json.str ("2.0")), ("id", Json.num 3)])
    ∧ (Json.obj [("jsonrpc", Json.str ("2.0")), ("id", Json.num 3)]).hasKey ("result") = false
    ∧ (Json.obj [("jsonrpc", Json.str ("2.0")), ("id", Json.num 3)]).hasKey ("error") = false := by
  exact ⟨rfl, rfl, rfl⟩

/-- Claim C8 amended: every response envelope the substrate emits contains
at most one of `result` and `error`, and exactly one — for every input
line, parseable or not, and every handler outcome — except when the
handler resolved with `undefined`, in which case the emitted envelope
contains neither. -/
theorem response_exclusivity (p : PayloadPlugin) (now : Int) (line : String)
    (doc : Json) (hdoc : (p.handleLine now line).2 = some doc) :
    ¬(doc.hasKey ("result") = true ∧ doc.hasKey ("error") = true)
    ∧ (doc.hasKey ("result") = false → doc.hasKey ("error") = false →
        ∃ req, parseTopLevel line = some req
          ∧ (p.dispatch (req.get? ("method")) (requestParams req) now).2
              = Except.ok JsValue.undef) := by
  rcases hp : parseTopLevel line with _ | req
  · have h1 : p.handleLine now line =
        (Tier.sync, some (wireObj (some (Json.num 0)) none
          (some (JSON_RPC_ERRORS.PARSE_ERROR, "Parse error")))) := by
      unfold PayloadPlugin.handleLine
      rw [hp]
    rw [h1] at hdoc
    dsimp only at hdoc
    injection hdoc with h2
    subst h2
    refine ⟨?_, ?_⟩
    · rintro ⟨hr, he⟩
      simp [wireObj_hasKey_result] at hr
    · intro hr he
      simp [wireObj_hasKey_error] at he
  · rw [handleLine_parsed p now line req hp] at hdoc
    dsimp only at hdoc
    rcases hout : (p.dispatch (req.get? ("method")) (requestParams req) now).2 with t | jv
    · rw [hout] at hdoc
      dsimp only [finishOutcome, catchEmit] at hdoc
      rcases hprobe : t.numericCodeProbe with _ | codeOpt
      · rw [hprobe] at hdoc
        exact Option.noConfusion hdoc
      · rw [hprobe] at hdoc
        injection hdoc with h2
        subst h2
        refine ⟨?_, ?_⟩
        · rintro ⟨hr, he⟩
          simp [wireObj_hasKey_result] at hr
        · intro hr he
          simp [wireObj_hasKey_error] at he
    · rw [hout] at hdoc
      rcases jv with _ | w | msg
      · dsimp only [finishOutcome] at hdoc
        injection hdoc with h2
        subst h2
        refine ⟨?_, ?_⟩
        · rintro ⟨hr, he⟩
          simp [wireObj_hasKey_result] at hr
        · intro hr he
          exact ⟨req, rfl, hout⟩
      · dsimp only [finishOutcome] at hdoc
        injection hdoc with h2
        subst h2
        refine ⟨?_, ?_⟩
        · rintro ⟨hr, he⟩
          simp [wireObj_hasKey_error] at he
        · intro hr he
          simp [wireObj_hasKey_result] at hr
      · dsimp only [finishOutcome, catchEmit, Thrown.numericCodeProbe] at hdoc
        injection hdoc with h2
        subst h2
        refine ⟨?_, ?_⟩
        · rintro ⟨hr, he⟩
          simp [wireObj_hasKey_result] at hr
        · intro hr he
          simp [wireObj_hasKey_error] at he

/-- Witness for the amended C8: on the undefined-resolving handler's line,
the emitted envelope has at most one of the two keys, and since it has
neither, the dispatch outcome was indeed a resolution with `undefined`. -/
theorem response_exclusivity_witness :
    (undefPlugin.handleLine 0 undefLine3).2 =
      some (Json.obj [("jsonrpc", Json.str ("2.0")), ("id", Json.num 3)])
    ∧ ¬((Json.obj [("jsonrpc", Json.str ("2.0")), ("id", Json.num 3)]).hasKey ("result") = true
        ∧ (Json.obj [("jsonrpc", Json.str ("2.0")), ("id", Json.num 3)]).hasKey ("error") = true)
    ∧ ∃ req, parseTopLevel undefLine3 = some req
        ∧ (undefPlugin.dispatch (req.get? ("method")) (requestParams req) 0).2
            = Except.ok JsValue.undef := by
  have h := response_exclusivity undefPlugin 0 undefLine3
    (Json.obj [("jsonrpc", Json.str ("2.0")), ("id", Json.num 3)]) (by rfl)
  exact ⟨by rfl, h.1, h.2 (by rfl) (by rfl)⟩

/-- Claim C9: the fixed fallback identifier of parse-error responses is the
number 0, so by identifier alone such a response is indistinguishable from
the response to a genuine request whose host-chosen identifier is 0: any
response emitted for that request carries the same identifier 0. -/
theorem fallback_identifier_zero (p p2 : PayloadPlugin) (now now2 : Int)
    (line line2 : String) (req2 : Json)
    (h1 : parseTopLevel line = none)
    (h2 : parseTopLevel line2 = some req2)
    (hid : req2.get? ("id") = some (Json.num 0)) :
    (∃ doc, (p.handleLine now line).2 = some doc
      ∧ doc.get? ("id") = some (Json.num 0))
    ∧ ∀ doc2, (p2.handleLine now2 line2).2 = some doc2 →
        doc2.get? ("id") = some (Json.num 0) := by
  constructor
  · refine ⟨wireObj (some (Json.num 0)) none
      (some (JSON_RPC_ERRORS.PARSE_ERROR, "Parse error")), ?_, ?_⟩
    · unfold PayloadPlugin.handleLine
      rw [h1]
    · exact wireObj_get_id _ _ _
  · intro doc2 hdoc2
    rw [handleLine_parsed p2 now2 line2 req2 h2] at hdoc2
    dsimp only at hdoc2
    rw [hid] at hdoc2
    exact finishOutcome_get_id _ _ _ hdoc2

/-- Witness for C9: the parse-error response for `not json at all` and the
response to a genuine `healthCheck` request with id 0 carry the same
identifier 0. -/
theorem fallback_identifier_zero_witness :
    parseTopLevel badLine = none
    ∧ (∃ doc, (demoPlugin.handleLine 0 badLine).2 = some doc
        ∧ doc.get? ("id") = some (Json.num 0))
    ∧ (wireObj (some (Json.num 0)) (some (healthCheckResult 0 0)) none).get? ("id")
        = some (Json.num 0) := by
  have h := fallback_identifier_zero demoPlugin demoPlugin 0 0 badLine hcLine0
    hcReq0 (by rfl) (by rfl) (by rfl)
  exact ⟨by rfl, h.1, h.2 (wireObj (some (Json.num 0)) (some (healthCheckResult 0 0)) none) (by rfl)⟩

/-- Counterexample to claim C10: the builtin check compares the method
value against `'getMetadata'` with strict string equality, but the
handlers-map access coerces the method value to a property key; a request
whose method is the ARRAY `["getMetadata"]` therefore bypasses the builtin
and invokes the author-supplied handler registered under that name — its
result, not the descriptor, is returned. -/
theorem builtin_shadowing_counterexample :
    (shadowPlugin.handleLine 0 arrayMethodLine).2 =
      some (wireObj (some (Json.num 1)) (some (Json.str ("author shadow invoked"))) none)
    ∧ (wireObj (some (Json.num 1)) (some (Json.str ("author shadow invoked"))) none).get? ("result")
        ≠ some shadowPlugin.config.metadata.descriptor := by
  refine ⟨rfl, ?_⟩
  intro hcontra
  have hcv : some (Json.str ("author shadow invoked"))
      = some shadowPlugin.config.metadata.descriptor := by
    rw [← hcontra]
    rfl
  rw [Option.some_inj] at hcv
  exact Json.noConfusion hcv

/-- Claim C10 amended: for every request whose method field is a string,
the builtins `getMetadata` and `healthCheck` are resolved before the
author's handlers map, so author-supplied entries under those names are
unreachable: dispatch is unchanged when they are erased.  (Only a
non-string method value coercing to such a name can reach them.) -/
theorem builtin_shadowing_string_methods (p : PayloadPlugin) (m : String)
    (params : Json) (now : Int) :
    p.dispatch (some (Json.str m)) params now =
      PayloadPlugin.dispatch
        { config := { metadata := p.config.metadata,
                      handlers := eraseBuiltinNames p.config.handlers },
          startTime := p.startTime }
        (some (Json.str m)) params now := by
  unfold PayloadPlugin.dispatch
  by_cases hg : m = "getMetadata"
  · subst hg
    rfl
  · by_cases hh : m = "healthCheck"
    · subst hh
      rfl
    · have e1 : isStrEq (some (Json.str m)) ("getMetadata") = false := by
        simp [isStrEq, hg]
      have e2 : isStrEq (some (Json.str m)) ("healthCheck") = false := by
        simp [isStrEq, hh]
      have e3 : jsPropKey (some (Json.str m)) = m := by
        simp [jsPropKey, jsString]
      simp only [e1, e2, e3, Bool.false_eq_true, if_false]
      rw [lookupHandler_erase p.config.handlers m hg hh]

end JunctionRelay
